import Mathlib

/-!
Verification of the quote and trend lookup and LLM prompt assembly logic of
the stock tracker application (src/app.py), as a shallow embedding in Lean.

Prices are modelled as rationals.  Where the source performs a floating-point
division whose divisor may be zero, the result is modelled as an
`Option` value: `Option.none` stands for the non-finite outcome of a zero
division (for NumPy float64 scalars this is a NaN plus a runtime warning, for
plain Python floats a ZeroDivisionError; in both backends the outcome is not
the number zero).  Fallible provider calls are modelled by `Option` inputs and
results; exception-raising steps inside a try block are modelled with
`Except`.
-/

set_option autoImplicit false

namespace StockApp

/-- Rounding of a rational to the nearest integer, ties to even: the model of
the Python builtin `round` restricted to arguments whose value is exactly
representable, which covers every value any theorem below evaluates it on. -/
def roundHalfEven (q : ℚ) : ℤ :=
  let n := ⌊q⌋
  let f := q - (n : ℚ)
  if f < 1/2 then n
  else if 1/2 < f then n + 1
  else if n % 2 = 0 then n else n + 1

/-- Model of `round(x, 2)` from the source. -/
def round2 (q : ℚ) : ℚ :=
  ((roundHalfEven (q * 100) : ℤ) : ℚ) / 100

/-- Division as performed by the source on provider floats: a zero divisor
does not produce the number zero but a non-finite value (modelled as
`Option.none`); any nonzero divisor gives the exact quotient. -/
def pyDiv (a b : ℚ) : Option ℚ :=
  if b = 0 then Option.none else Option.some (a / b)

/-- The quote record built by `get_current_price` in src/app.py:
`{"price": ..., "change": ..., "change_pct": ..., "timestamp": ...}`.
`change_pct` is `Option.none` when the percent computation divided by zero. -/
structure Quote where
  price : ℚ
  change : ℚ
  change_pct : Option ℚ
  timestamp : String
  deriving Repr, DecidableEq

/-- Model of `StockTracker.get_current_price` (src/app.py lines 71-100).
Inputs are the provider results of a successful fetch: `closes` is the Close
column of the 1-day history frame (the frame is empty iff the list is), and
`prevCloseInfo` is the value `info.get("previousClose", ...)` would find:
`Option.none` when the info fetch raised, the key is absent, or the stored
value is None, mirroring the `in (None, 0)` guard together with the two
fallbacks in the source.  `now` is the formatted timestamp.  The result is
`Option.none` when the frame is empty (the source returns None). -/
def get_current_price (closes : List ℚ) (prevCloseInfo : Option ℚ)
    (now : String) : Option Quote :=
  match closes.getLast? with
  | Option.none => Option.none
  | Option.some current_price =>
      let prev0 := prevCloseInfo.getD current_price
      let prev_close := if prev0 = 0 then current_price else prev0
      let change := current_price - prev_close
      let change_pct := (pyDiv change prev_close).map (fun r => r * 100)
      Option.some
        { price := round2 current_price
        , change := round2 change
        , change_pct := change_pct.map round2
        , timestamp := now }

theorem roundHalfEven_intCast (n : ℤ) : roundHalfEven (n : ℚ) = n := by
  unfold roundHalfEven
  rw [Int.floor_intCast]
  norm_num

theorem round2_intCast (n : ℤ) : round2 (n : ℚ) = n := by
  unfold round2
  have h : (n : ℚ) * 100 = ((n * 100 : ℤ) : ℚ) := by push_cast; ring
  rw [h, roundHalfEven_intCast]
  push_cast
  rw [mul_div_assoc]
  norm_num

theorem round2_zero : round2 0 = 0 := by
  have := round2_intCast 0
  simpa using this

/-- C6: with previous close 150.00 and current price 153.00 the quote has
change 3.00 and change percent 2.00 (and price 153.00). -/
theorem C6_concrete_quote :
    get_current_price [153] (Option.some 150) "2024-01-02 10:00:00"
      = Option.some
          { price := 153, change := 3, change_pct := Option.some 2
          , timestamp := "2024-01-02 10:00:00" } := by
  have h153 : round2 153 = 153 := by
    have := round2_intCast 153; push_cast at this; simpa using this
  have h3 : round2 3 = 3 := by
    have := round2_intCast 3; push_cast at this; simpa using this
  have h2 : round2 2 = 2 := by
    have := round2_intCast 2; push_cast at this; simpa using this
  unfold get_current_price
  norm_num [pyDiv, h153, h2, h3]

/-- C1 counterexample: when the last close itself is 0 and the previous close
is 0 (or missing), the fallback sets the previous close to the current price
0, and the percent computation divides zero by zero; the returned record has
a non-finite change percent, not the number zero, contradicting the claim
that the change percent is zero for every provider price. -/
theorem C1_counterexample :
    get_current_price [0] (Option.some 0) "t"
        = Option.some
            { price := 0, change := 0, change_pct := Option.none
            , timestamp := "t" }
      ∧ (Option.none : Option ℚ) ≠ Option.some 0 := by
  constructor
  · unfold get_current_price
    norm_num [pyDiv, round2_zero]
  · simp

/-- C1 (amended): for provider data whose current price is nonzero, a missing
or zero previous close yields a quote whose change and change percent are
both exactly zero, with no exception. -/
theorem C1_zero_prev_close (closes : List ℚ) (prev : Option ℚ) (now : String)
    (cp : ℚ) (hlast : closes.getLast? = Option.some cp) (hcp : cp ≠ 0)
    (hprev : prev = Option.none ∨ prev = Option.some 0) :
    get_current_price closes prev now
      = Option.some
          { price := round2 cp, change := 0, change_pct := Option.some 0
          , timestamp := now } := by
  rcases hprev with h | h <;>
    subst h <;>
    unfold get_current_price <;>
    rw [hlast] <;>
    simp [pyDiv, if_neg hcp, round2_zero]

/-- Witness for C1: concrete run with current price 153 and missing previous
close. -/
theorem C1_witness :
    ([(153 : ℚ)].getLast? = Option.some 153 ∧ (153 : ℚ) ≠ 0)
      ∧ get_current_price [153] Option.none "t"
          = Option.some
              { price := round2 153, change := 0
              , change_pct := Option.some 0, timestamp := "t" } :=
  ⟨⟨rfl, by norm_num⟩,
    C1_zero_prev_close [153] Option.none "t" 153 rfl (by norm_num)
      (Or.inl rfl)⟩

/-! ### String helpers

Substring tests used to state properties of diagnostic messages. -/

/-- `leadsWith pat s` is true when `pat` is an initial segment of `s`. -/
def leadsWith : List Char → List Char → Bool
  | [], _ => true
  | _ :: _, [] => false
  | a :: as, b :: bs => a = b && leadsWith as bs

/-- `hasSub pat s` is true when `pat` occurs contiguously inside `s`. -/
def hasSub (pat : List Char) : List Char → Bool
  | [] => leadsWith pat []
  | c :: t => leadsWith pat (c :: t) || hasSub pat t

/-- `strLeadsWith s pat` is true when the string `s` starts with `pat`. -/
def strLeadsWith (s pat : String) : Bool :=
  leadsWith pat.data s.data

/-- `strHasSub s pat` is true when the string `s` contains `pat`. -/
def strHasSub (s pat : String) : Bool :=
  hasSub pat.data s.data

/-! ### Text sanitization (src/app.py lines 178-185)

`sanitize_for_groq` does `text.encode("ascii", "ignore").decode()`: every
character whose code point exceeds 127 is dropped and every other character,
printable or not, is kept. -/

/-- Model of the body of `sanitize_for_groq`. -/
def sanitize_for_groq (text : String) : String :=
  String.mk (text.data.filter (fun c => c.toNat ≤ 127))

theorem filter_idem {α : Type} (p : α → Bool) (l : List α) :
    (l.filter p).filter p = l.filter p := by
  induction l with
  | nil => rfl
  | cons a t ih =>
      by_cases h : p a = true
      · simp [List.filter_cons, h, ih]
      · simp [List.filter_cons, h, ih]

/-- C2 counterexample: the newline character is kept by the sanitizer (its
code point 10 is within 7 bits) yet it is not a printable character, so the
output is not made of 7-bit printable characters only. -/
theorem C2_counterexample :
    sanitize_for_groq "\n" = "\n"
      ∧ ((sanitize_for_groq "\n").data.all
          (fun c => 32 ≤ c.toNat && c.toNat ≤ 126)) = false := by
  constructor
  · decide
  · decide

/-- C2 (amended): sanitization is idempotent and every character of the
output is a 7-bit character (code point at most 127); control characters
inside that range, such as the newline, are preserved, so the output need not
be printable. -/
theorem C2_sanitize_idempotent_ascii (s : String) :
    sanitize_for_groq (sanitize_for_groq s) = sanitize_for_groq s
      ∧ ∀ c ∈ (sanitize_for_groq s).data, c.toNat ≤ 127 := by
  constructor
  · unfold sanitize_for_groq
    simp [filter_idem]
  · intro c hc
    unfold sanitize_for_groq at hc
    simp only [List.mem_filter] at hc
    simpa using hc.2

/-- Witness for C2: the theorem applied to a string holding an emoji
(code point 128512), whose sanitized form is the single letter a. -/
theorem C2_witness :
    sanitize_for_groq (sanitize_for_groq (String.mk ['a', Char.ofNat 128512]))
        = sanitize_for_groq (String.mk ['a', Char.ofNat 128512])
      ∧ ('a').toNat ≤ 127 :=
  ⟨(C2_sanitize_idempotent_ascii (String.mk ['a', Char.ofNat 128512])).1,
    (C2_sanitize_idempotent_ascii (String.mk ['a', Char.ofNat 128512])).2
      'a' (by decide)⟩

/-! ### Provider info dictionaries

Python dictionaries holding provider data are modelled as association lists
from string keys to dynamically typed values. -/

/-- A dynamically typed Python value as it occurs in the provider info
dictionary and in the metrics mapping: a string, a number, or None.  The
rendering of numbers by str() is abstracted as the canonical rational
rendering; no claim below depends on it. -/
inductive PyVal where
  | str : String → PyVal
  | num : ℚ → PyVal
  | none : PyVal
  deriving Repr, DecidableEq

/-- Model of `dict.get(k, dflt)`: the stored value when the key is present
(even when that value is None), the default otherwise. -/
def pyGet (d : List (String × PyVal)) (k : String) (dflt : PyVal) : PyVal :=
  match d with
  | [] => dflt
  | p :: rest => if p.1 = k then p.2 else pyGet rest k dflt

/-- Model of the f-string interpolation str() applied to a value. -/
def pyValStr : PyVal → String
  | PyVal.str s => s
  | PyVal.num q => toString q
  | PyVal.none => "None"

theorem pyGet_absent {d : List (String × PyVal)} {k : String} {dflt : PyVal}
    (h : k ∉ d.map Prod.fst) : pyGet d k dflt = dflt := by
  induction d with
  | nil => rfl
  | cons p rest ih =>
      simp only [List.map_cons, List.mem_cons] at h
      push_neg at h
      rw [pyGet, if_neg (fun hk => h.1 hk.symm)]
      exact ih h.2

theorem pyGet_allNA {d : List (String × PyVal)}
    (h : ∀ p ∈ d, p.2 = PyVal.str "N/A") (k : String) :
    pyGet d k (PyVal.str "N/A") = PyVal.str "N/A" := by
  induction d with
  | nil => rfl
  | cons p rest ih =>
      rw [pyGet]
      by_cases hk : p.1 = k
      · rw [if_pos hk]
        exact h p (List.mem_cons_self p rest)
      · rw [if_neg hk]
        exact ih (fun q hq => h q (List.mem_cons_of_mem p hq))

/-! ### Stock info (src/app.py lines 113-135)

`get_stock_info` returns a twelve-field record; eleven fields default to the
string N/A when the source datum is missing, while company defaults to the
ticker symbol. -/

/-- The record returned by `get_stock_info`. -/
structure StockInfo where
  company : PyVal
  sector : PyVal
  industry : PyVal
  market_cap : PyVal
  pe_ratio : PyVal
  day_high : PyVal
  day_low : PyVal
  week52_high : PyVal
  week52_low : PyVal
  volume : PyVal
  avg_volume : PyVal
  dividend_yield : PyVal
  deriving Repr, DecidableEq

/-- Model of `StockTracker.get_stock_info` on a successful provider fetch
with info dictionary `info` (the source replaces a falsy info by the empty
dictionary before the lookups). -/
def get_stock_info (info : List (String × PyVal)) (ticker : String) :
    StockInfo :=
  { company := pyGet info "longName" (PyVal.str ticker)
  , sector := pyGet info "sector" (PyVal.str "N/A")
  , industry := pyGet info "industry" (PyVal.str "N/A")
  , market_cap := pyGet info "marketCap" (PyVal.str "N/A")
  , pe_ratio := pyGet info "trailingPE" (PyVal.str "N/A")
  , day_high := pyGet info "dayHigh" (PyVal.str "N/A")
  , day_low := pyGet info "dayLow" (PyVal.str "N/A")
  , week52_high := pyGet info "fiftyTwoWeekHigh" (PyVal.str "N/A")
  , week52_low := pyGet info "fiftyTwoWeekLow" (PyVal.str "N/A")
  , volume := pyGet info "volume" (PyVal.str "N/A")
  , avg_volume := pyGet info "averageVolume" (PyVal.str "N/A")
  , dividend_yield := pyGet info "dividendYield" (PyVal.str "N/A") }

/-- C8 counterexample: on an empty provider info the company field is set to
the ticker symbol, not to the N/A sentinel, so not every missing field
defaults to the sentinel. -/
theorem C8_counterexample :
    (get_stock_info [] "AAPL").company = PyVal.str "AAPL"
      ∧ PyVal.str "AAPL" ≠ PyVal.str "N/A" := by
  constructor
  · rfl
  · decide

/-- C8 (amended): all twelve fields are total functions of arbitrary provider
info; every field whose source key is absent is the N/A sentinel, except the
company field, which falls back to the ticker symbol. -/
theorem C8_missing_field_defaults (info : List (String × PyVal))
    (ticker : String) :
    ("longName" ∉ info.map Prod.fst
        → (get_stock_info info ticker).company = PyVal.str ticker)
      ∧ ("sector" ∉ info.map Prod.fst
        → (get_stock_info info ticker).sector = PyVal.str "N/A")
      ∧ ("industry" ∉ info.map Prod.fst
        → (get_stock_info info ticker).industry = PyVal.str "N/A")
      ∧ ("marketCap" ∉ info.map Prod.fst
        → (get_stock_info info ticker).market_cap = PyVal.str "N/A")
      ∧ ("trailingPE" ∉ info.map Prod.fst
        → (get_stock_info info ticker).pe_ratio = PyVal.str "N/A")
      ∧ ("dayHigh" ∉ info.map Prod.fst
        → (get_stock_info info ticker).day_high = PyVal.str "N/A")
      ∧ ("dayLow" ∉ info.map Prod.fst
        → (get_stock_info info ticker).day_low = PyVal.str "N/A")
      ∧ ("fiftyTwoWeekHigh" ∉ info.map Prod.fst
        → (get_stock_info info ticker).week52_high = PyVal.str "N/A")
      ∧ ("fiftyTwoWeekLow" ∉ info.map Prod.fst
        → (get_stock_info info ticker).week52_low = PyVal.str "N/A")
      ∧ ("volume" ∉ info.map Prod.fst
        → (get_stock_info info ticker).volume = PyVal.str "N/A")
      ∧ ("averageVolume" ∉ info.map Prod.fst
        → (get_stock_info info ticker).avg_volume = PyVal.str "N/A")
      ∧ ("dividendYield" ∉ info.map Prod.fst
        → (get_stock_info info ticker).dividend_yield = PyVal.str "N/A") :=
  ⟨fun h => pyGet_absent h, fun h => pyGet_absent h, fun h => pyGet_absent h,
    fun h => pyGet_absent h, fun h => pyGet_absent h, fun h => pyGet_absent h,
    fun h => pyGet_absent h, fun h => pyGet_absent h, fun h => pyGet_absent h,
    fun h => pyGet_absent h, fun h => pyGet_absent h, fun h => pyGet_absent h⟩

/-- Witness for C8: on the empty info every default fires; sampled on the
company and sector fields. -/
theorem C8_witness :
    (get_stock_info [] "AAPL").company = PyVal.str "AAPL"
      ∧ (get_stock_info [] "AAPL").sector = PyVal.str "N/A" :=
  ⟨(C8_missing_field_defaults [] "AAPL").1 (by decide),
    (C8_missing_field_defaults [] "AAPL").2.1 (by decide)⟩

/-! ### Context block assembly (src/app.py lines 198-214)

The context f-string interpolates twelve lookups into the metrics mapping,
each with the string default N/A, so a missing key can never raise. -/

/-- One interpolated field of the context block:
`str(stock_data.get(k, "N/A"))`. -/
def ctxField (sd : List (String × PyVal)) (k : String) : String :=
  pyValStr (pyGet sd k (PyVal.str "N/A"))

/-- Model of the `context` f-string of `analyze_with_ai`, including the
indentation the triple-quoted literal carries in the source. -/
def buildContext (ticker : String) (sd : List (String × PyVal)) : String :=
  "\n    Current " ++ ticker ++ " Stock Data:\n    - Current Price: $"
    ++ ctxField sd "current_price"
    ++ "\n    - Day Change: " ++ ctxField sd "change"
    ++ " (" ++ ctxField sd "change_pct"
    ++ "%)\n    - Day High: $" ++ ctxField sd "day_high"
    ++ "\n    - Day Low: $" ++ ctxField sd "day_low"
    ++ "\n    - 52 Week High: $" ++ ctxField sd "52week_high"
    ++ "\n    - 52 Week Low: $" ++ ctxField sd "52week_low"
    ++ "\n    - Market Cap: " ++ ctxField sd "market_cap"
    ++ "\n    - P/E Ratio: " ++ ctxField sd "pe_ratio"
    ++ "\n    - Volume: " ++ ctxField sd "volume"
    ++ "\n    - Sector: " ++ ctxField sd "sector"
    ++ "\n    - Industry: " ++ ctxField sd "industry"
    ++ "\n\n    Historical Performance:\n    "
    ++ ctxField sd "historical_summary"
    ++ "\n    "

/-- C9: on a metrics mapping whose every stored value is the N/A sentinel
(in particular on mappings where fields are absent entirely), every
interpolated field renders as the sentinel and the assembled context block
equals the one assembled from the empty mapping; the assembly is a total
function, so no exception can arise. -/
theorem C9_context_all_sentinel (ticker : String)
    (sd : List (String × PyVal))
    (h : ∀ p ∈ sd, p.2 = PyVal.str "N/A") :
    (∀ k, ctxField sd k = "N/A")
      ∧ buildContext ticker sd = buildContext ticker [] := by
  have hk : ∀ k, ctxField sd k = "N/A" := by
    intro k
    unfold ctxField
    rw [pyGet_allNA h]
    rfl
  refine ⟨hk, ?_⟩
  simp only [buildContext, hk]
  rfl

/-- Witness for C9: the theorem applied to a one-entry mapping whose value is
the sentinel. -/
theorem C9_witness :
    buildContext "AAPL" [("sector", PyVal.str "N/A")]
        = buildContext "AAPL" []
      ∧ ctxField [("sector", PyVal.str "N/A")] "volume" = "N/A" :=
  ⟨(C9_context_all_sentinel "AAPL" [("sector", PyVal.str "N/A")]
      (by decide)).2,
    (C9_context_all_sentinel "AAPL" [("sector", PyVal.str "N/A")]
      (by decide)).1 "volume"⟩

/-! ### AI assistant bridge (src/app.py lines 187-247)

`analyze_with_ai` guards on library availability and credential, then runs a
try block whose failures are converted by the blanket handler into the
diagnostic string `AI Error: ...`.  The remote chat-completion call is
abstracted as an oracle giving the reply the transport would produce; the
try block is an `Except` computation whose error is the str() of the raised
exception. -/

/-- Outcome of the remote chat-completion call, abstracted: `chat model
system user` is the reply text or the text of a transport exception.  The
fixed temperature 0.7 and the 1000-token ceiling of the source are constants
of the call site and are omitted. -/
structure RemoteOracle where
  chat : String → String → String → Except String String

def groqInstallMsg : String :=
  "Groq library not installed. Please run: pip install groq"

def groqKeyMsg : String :=
  "Please enter your FREE Groq API key in the sidebar."

def remediationHint : String :=
  "Make sure your API key is valid or try again without emojis in your question."

def nameErrorText : String :=
  "name 'sanitize_for_groq' is not defined"

def groqModelName : String := "llama-3.3-70b-versatile"

def systemPrompt : String :=
  "You are a helpful financial analyst assistant. Provide clear, balanced analysis of stock data. Always remind users this is not financial advice and they should do their own research."

/-- Resolution of the bare name `sanitize_for_groq` inside the body of
`analyze_with_ai`.  The helper is defined in the class body of StockTracker
(line 178) without a self parameter, and the method body refers to it as a
bare name (lines 217, 218, 225); Python resolves a bare name through the
local, enclosing-function, module-global and builtin scopes, and the class
body is not among them, so evaluating the reference raises a NameError whose
str() is `nameErrorText`. -/
def resolveSanitizeForGroq : Except String (String → String) :=
  Except.error nameErrorText

/-- The try block of `analyze_with_ai` (src/app.py lines 195-240): build the
client, assemble the context, sanitize, and perform the remote call.  The
sanitization step fails first, so the remote call is dead code. -/
def tryBody (oracle : RemoteOracle) (ticker query : String)
    (stock_data : List (String × PyVal)) : Except String String := do
  let context := buildContext ticker stock_data
  let sfg ← resolveSanitizeForGroq
  let safe_context := sfg context
  let safe_query := sfg query
  oracle.chat groqModelName (sfg systemPrompt)
    (safe_context ++ "\n\nUser Query: " ++ safe_query
      ++ "\n\nProvide helpful analysis based on the data above.")

/-- Model of `StockTracker.analyze_with_ai`.  `groq_available` reflects
whether the groq import succeeded; the two precondition guards return
guidance strings, and any exception escaping the try block is converted to
the diagnostic string of the blanket handler. -/
def analyze_with_ai (groq_available : Bool) (oracle : RemoteOracle)
    (ticker query : String) (stock_data : List (String × PyVal))
    (api_key : String) : String :=
  if groq_available = false then groqInstallMsg
  else if api_key = "" then groqKeyMsg
  else
    match tryBody oracle ticker query stock_data with
    | Except.ok reply => reply
    | Except.error e => "AI Error: " ++ e ++ "\n\n" ++ remediationHint

/-- The diagnostic string actually produced on every reachable failure. -/
def aiNameErrorDiag : String :=
  "AI Error: " ++ nameErrorText ++ "\n\n" ++ remediationHint

theorem tryBody_eq_nameError (oracle : RemoteOracle) (ticker query : String)
    (sd : List (String × PyVal)) :
    tryBody oracle ticker query sd = Except.error nameErrorText := rfl

theorem analyze_with_ai_diag (oracle : RemoteOracle) (ticker query : String)
    (sd : List (String × PyVal)) (api_key : String) (hkey : api_key ≠ "") :
    analyze_with_ai true oracle ticker query sd api_key = aiNameErrorDiag := by
  unfold analyze_with_ai
  rw [if_neg (by simp), if_neg hkey, tryBody_eq_nameError]
  rfl

/-- C3: with the groq library available and a nonempty credential,
`analyze_with_ai` always returns the diagnostic built from the NameError of
the unresolvable bare name `sanitize_for_groq`; the result starts with
`AI Error:`, and because it is the same for every oracle, the remote call is
never consulted. -/
theorem C3_name_error_diagnostic (oracle : RemoteOracle)
    (ticker query : String) (sd : List (String × PyVal)) (api_key : String)
    (hkey : api_key ≠ "") :
    analyze_with_ai true oracle ticker query sd api_key = aiNameErrorDiag
      ∧ strLeadsWith
          (analyze_with_ai true oracle ticker query sd api_key)
          "AI Error:" = true := by
  have h := analyze_with_ai_diag oracle ticker query sd api_key hkey
  refine ⟨h, ?_⟩
  rw [h]
  decide

/-- Witness for C3: a concrete invocation with an oracle whose reply would
succeed; the reply is discarded because the call is never reached. -/
theorem C3_witness :
    analyze_with_ai true (RemoteOracle.mk fun _ _ _ => Except.ok "reply")
        "AAPL" "How is the stock doing?" [] "gsk_key" = aiNameErrorDiag
      ∧ strLeadsWith
          (analyze_with_ai true
            (RemoteOracle.mk fun _ _ _ => Except.ok "reply")
            "AAPL" "How is the stock doing?" [] "gsk_key")
          "AI Error:" = true :=
  C3_name_error_diagnostic (RemoteOracle.mk fun _ _ _ => Except.ok "reply")
    "AAPL" "How is the stock doing?" [] "gsk_key" (by decide)

/-- C4: with the groq library available and an empty credential the result is
the literal configure-credential guidance string, for every oracle (so no
network call is attempted) and without any exception (the model is a total
function). -/
theorem C4_empty_key_guidance (oracle : RemoteOracle)
    (ticker query : String) (sd : List (String × PyVal)) :
    analyze_with_ai true oracle ticker query sd "" = groqKeyMsg
      ∧ groqKeyMsg = "Please enter your FREE Groq API key in the sidebar." :=
  ⟨rfl, rfl⟩

/-- C5 counterexample: take an oracle whose remote call would raise the
transport error boom; the function returns the NameError diagnostic, which
does not contain the underlying transport error text, because the remote
call is never reached. -/
theorem C5_counterexample :
    (RemoteOracle.mk fun _ _ _ => Except.error "boom").chat "m" "s" "u"
        = Except.error "boom"
      ∧ strHasSub
          (analyze_with_ai true
            (RemoteOracle.mk fun _ _ _ => Except.error "boom")
            "AAPL" "q" [] "gsk_key")
          "boom" = false := by
  constructor
  · rfl
  · decide

/-- C5 (amended): every exception raised inside the try block is caught and
converted to the plain-text diagnostic `AI Error: <error text>` followed by
the remediation hint, and is returned, never re-raised; in the current code
the exception raised is the NameError of the sanitization step, so the
diagnostic echoes that error text rather than a remote transport error. -/
theorem C5_exception_to_diagnostic (oracle : RemoteOracle)
    (ticker query : String) (sd : List (String × PyVal)) (api_key : String)
    (hkey : api_key ≠ "") :
    tryBody oracle ticker query sd = Except.error nameErrorText
      ∧ analyze_with_ai true oracle ticker query sd api_key
          = "AI Error: " ++ nameErrorText ++ "\n\n" ++ remediationHint
      ∧ strHasSub (analyze_with_ai true oracle ticker query sd api_key)
          nameErrorText = true
      ∧ strHasSub (analyze_with_ai true oracle ticker query sd api_key)
          remediationHint = true := by
  have h := analyze_with_ai_diag oracle ticker query sd api_key hkey
  refine ⟨tryBody_eq_nameError oracle ticker query sd, h, ?_, ?_⟩
  · rw [h]
    decide
  · rw [h]
    decide

/-- Witness for C5: concrete invocation with a succeeding oracle. -/
theorem C5_witness :
    tryBody (RemoteOracle.mk fun _ _ _ => Except.ok "r") "AAPL" "q" []
        = Except.error nameErrorText
      ∧ analyze_with_ai true (RemoteOracle.mk fun _ _ _ => Except.ok "r")
          "AAPL" "q" [] "gsk_key"
          = "AI Error: " ++ nameErrorText ++ "\n\n" ++ remediationHint
      ∧ strHasSub
          (analyze_with_ai true
            (RemoteOracle.mk fun _ _ _ => Except.ok "r") "AAPL" "q" []
            "gsk_key")
          nameErrorText = true
      ∧ strHasSub
          (analyze_with_ai true
            (RemoteOracle.mk fun _ _ _ => Except.ok "r") "AAPL" "q" []
            "gsk_key")
          remediationHint = true :=
  C5_exception_to_diagnostic (RemoteOracle.mk fun _ _ _ => Except.ok "r")
    "AAPL" "q" [] "gsk_key" (by decide)

/-! ### Chart renderer and the tab 1 guard (src/app.py lines 137-177 and
374-403)

A historical frame is a list of dated OHLCV rows; the fetch result is an
`Option` of such a list, `Option.none` when the provider call raised.  The
tab 1 body calls `create_price_chart` only behind the guard
`hist is not None and not hist.empty`, otherwise it shows the error state. -/

/-- One row of the historical OHLCV frame; `date` models the frame index. -/
structure Row where
  date : String
  Open : ℚ
  High : ℚ
  Low : ℚ
  Close : ℚ
  Volume : ℚ
  deriving Repr, DecidableEq

/-- A trace of the plotly figure: the candlestick layer or the secondary-axis
volume bar layer. -/
inductive Trace where
  | candlestick (x : List String) (o h l c : List ℚ) (name : String)
  | bar (x : List String) (y : List ℚ) (name yaxis color : String)
  deriving Repr, DecidableEq

/-- The figure specification returned by `create_price_chart`. -/
structure Figure where
  traces : List Trace
  title : String
  height : ℕ
  deriving Repr, DecidableEq

/-- Model of `StockTracker.create_price_chart`: a candlestick trace over the
frame index plus a volume bar trace on the second y axis. -/
def create_price_chart (hist : List Row) (ticker period : String) : Figure :=
  { traces :=
      [ Trace.candlestick (hist.map Row.date) (hist.map Row.Open)
          (hist.map Row.High) (hist.map Row.Low) (hist.map Row.Close) ticker
      , Trace.bar (hist.map Row.date) (hist.map Row.Volume) "Volume" "y2"
          "rgba(100, 100, 250, 0.3)" ]
  , title := ticker ++ " Stock Price History (" ++ period ++ ")"
  , height := 500 }

/-- What tab 1 displays: the rendered chart with its period metrics, or the
inline error banner. -/
inductive Tab1View where
  | chart (fig : Figure) (period_start period_end change : ℚ)
      (change_pct : Option ℚ)
  | errorState (msg : String)
  deriving Repr, DecidableEq

/-- Model of the tab 1 body: the guard `hist is not None and not hist.empty`
decides between rendering and the error banner; the period metrics are taken
from the first and last Close of the frame. -/
def tab1Render (hist : Option (List Row)) (ticker period : String) :
    Tab1View :=
  match hist with
  | Option.some (r :: rs) =>
      let period_start := r.Close
      let period_end := (rs.getLastD r).Close
      let change := period_end - period_start
      Tab1View.chart (create_price_chart (r :: rs) ticker period)
        period_start period_end change
        ((pyDiv change period_start).map (fun x => x * 100))
  | Option.some [] =>
      Tab1View.errorState ("Unable to load chart data for " ++ ticker)
  | Option.none =>
      Tab1View.errorState ("Unable to load chart data for " ++ ticker)

/-- C7: an absent or empty historical series always produces the error state
and never a rendered chart, and whenever tab 1 shows a chart the series was
present and non-empty, so `create_price_chart` is only ever invoked on a
non-empty series. -/
theorem C7_empty_series_never_rendered (ticker period : String) :
    tab1Render Option.none ticker period
        = Tab1View.errorState ("Unable to load chart data for " ++ ticker)
      ∧ tab1Render (Option.some []) ticker period
        = Tab1View.errorState ("Unable to load chart data for " ++ ticker)
      ∧ ∀ (hist : Option (List Row)) (fig : Figure) (ps pe ch : ℚ)
          (pct : Option ℚ),
          tab1Render hist ticker period = Tab1View.chart fig ps pe ch pct
            → hist ≠ Option.none ∧ hist ≠ Option.some [] := by
  refine ⟨rfl, rfl, ?_⟩
  intro hist fig ps pe ch pct h
  match hist with
  | Option.none => exact absurd h (by simp [tab1Render])
  | Option.some [] => exact absurd h (by simp [tab1Render])
  | Option.some (r :: rs) => exact ⟨by simp, by simp⟩

/-- Witness for C7: a one-row series renders a chart, and the theorem applied
to it shows the series was present and non-empty. -/
theorem C7_witness :
    Option.some [Row.mk "2024-01-02" 1 2 0 1 5] ≠ (Option.none : Option (List Row))
      ∧ Option.some [Row.mk "2024-01-02" 1 2 0 1 5] ≠ Option.some ([] : List Row) :=
  (C7_empty_series_never_rendered "AAPL" "1mo").2.2
    (Option.some [Row.mk "2024-01-02" 1 2 0 1 5])
    (create_price_chart [Row.mk "2024-01-02" 1 2 0 1 5] "AAPL" "1mo")
    (Row.mk "2024-01-02" 1 2 0 1 5).Close
    (([] : List Row).getLastD (Row.mk "2024-01-02" 1 2 0 1 5)).Close
    ((([] : List Row).getLastD (Row.mk "2024-01-02" 1 2 0 1 5)).Close
      - (Row.mk "2024-01-02" 1 2 0 1 5).Close)
    ((pyDiv
        ((([] : List Row).getLastD (Row.mk "2024-01-02" 1 2 0 1 5)).Close
          - (Row.mk "2024-01-02" 1 2 0 1 5).Close)
        (Row.mk "2024-01-02" 1 2 0 1 5).Close).map (fun x => x * 100))
    rfl

/-! ### Quote cache (src/app.py line 71)

The 60-second quote cache is the framework decorator
`st.cache_data(ttl=60)`; its implementation is not part of this repository.

Modelled from the spec: following the data-model invariant, the cache
freshness property and the design note of the spec, a TTL cache maps a key to
a value paired with its fetch timestamp; a lookup at time `now` returns the
cached value without calling the underlying fetch iff an entry exists whose
age is at most the TTL, and otherwise recomputes synchronously, fully
replacing the entry. -/

/-- A cache entry: the cached value and the wall-clock second it was
fetched. -/
structure CacheEntry (α : Type) where
  value : α
  fetchedAt : ℕ
  deriving Repr, DecidableEq

/-- Modelled from the spec: one cached fetch through a TTL cache.  Returns
the result, the updated cache, and whether the underlying fetch ran. -/
def cachedFetch {α : Type} (ttl : ℕ) (fetch : String → α) (key : String)
    (now : ℕ) (cache : List (String × CacheEntry α)) :
    α × List (String × CacheEntry α) × Bool :=
  match cache.find? (fun p => p.1 = key) with
  | Option.some p =>
      if now - p.2.fetchedAt ≤ ttl then (p.2.value, cache, false)
      else
        let v := fetch key
        (v, (key, CacheEntry.mk v now) :: cache.eraseP (fun q => q.1 = key),
          true)
  | Option.none =>
      let v := fetch key
      (v, (key, CacheEntry.mk v now) :: cache, true)

/-- C10: populate the cache at time `t0`; a second fetch at any `t1` at most
60 seconds later returns the identical cached value without running the
underlying fetch and leaves the cache unchanged, while a fetch at any `t2`
more than 60 seconds after the entry was created runs the underlying fetch
again. -/
theorem C10_quote_cache_freshness {α : Type} (fetch : String → α)
    (key : String) (t0 t1 t2 : ℕ) (h1 : t1 - t0 ≤ 60) (h2 : 60 < t2 - t0) :
    (cachedFetch 60 fetch key t0 []).2.2 = true
      ∧ (cachedFetch 60 fetch key t1 (cachedFetch 60 fetch key t0 []).2.1).1
          = (cachedFetch 60 fetch key t0 []).1
      ∧ (cachedFetch 60 fetch key t1 (cachedFetch 60 fetch key t0 []).2.1).2.2
          = false
      ∧ (cachedFetch 60 fetch key t1 (cachedFetch 60 fetch key t0 []).2.1).2.1
          = (cachedFetch 60 fetch key t0 []).2.1
      ∧ (cachedFetch 60 fetch key t2 (cachedFetch 60 fetch key t0 []).2.1).2.2
          = true := by
  have hbase : (cachedFetch 60 fetch key t0 []).2.1
      = [(key, CacheEntry.mk (fetch key) t0)] := rfl
  have hfind :
      ([(key, CacheEntry.mk (fetch key) t0)].find? (fun p => p.1 = key))
        = Option.some (key, CacheEntry.mk (fetch key) t0) := by
    simp [List.find?]
  refine ⟨rfl, ?_, ?_, ?_, ?_⟩
  · rw [hbase]
    unfold cachedFetch
    rw [hfind]
    simp [h1]
  · rw [hbase]
    unfold cachedFetch
    rw [hfind]
    simp [h1]
  · rw [hbase]
    unfold cachedFetch
    rw [hfind]
    simp [h1]
  · rw [hbase]
    unfold cachedFetch
    rw [hfind]
    simp [Nat.not_le.mpr h2]

/-- Witness for C10: populate at second 0, hit at second 60, miss at
second 61. -/
theorem C10_witness :
    ((60 : ℕ) - 0 ≤ 60 ∧ 60 < (61 : ℕ) - 0)
      ∧ (cachedFetch 60 (fun _ => (1 : ℕ)) "AAPL" 0 []).2.2 = true
      ∧ (cachedFetch 60 (fun _ => (1 : ℕ)) "AAPL" 60
          (cachedFetch 60 (fun _ => (1 : ℕ)) "AAPL" 0 []).2.1).1
          = (cachedFetch 60 (fun _ => (1 : ℕ)) "AAPL" 0 []).1
      ∧ (cachedFetch 60 (fun _ => (1 : ℕ)) "AAPL" 60
          (cachedFetch 60 (fun _ => (1 : ℕ)) "AAPL" 0 []).2.1).2.2 = false
      ∧ (cachedFetch 60 (fun _ => (1 : ℕ)) "AAPL" 60
          (cachedFetch 60 (fun _ => (1 : ℕ)) "AAPL" 0 []).2.1).2.1
          = (cachedFetch 60 (fun _ => (1 : ℕ)) "AAPL" 0 []).2.1
      ∧ (cachedFetch 60 (fun _ => (1 : ℕ)) "AAPL" 61
          (cachedFetch 60 (fun _ => (1 : ℕ)) "AAPL" 0 []).2.1).2.2 = true :=
  ⟨⟨by decide, by decide⟩,
    C10_quote_cache_freshness (fun _ => (1 : ℕ)) "AAPL" 0 60 61
      (by decide) (by decide)⟩

end StockApp
